import Mathlib

set_option maxRecDepth 8192

/-!
Verification development for the `mytoilscripts` batch pipelines
(`toil_adtex_coverage.py`, `toil_adtex_zygosity.py`, `toil_muse.py`,
`wrapAdtexCoverage.py`).

Byte strings are modelled as `List Nat` (each entry a byte), the local
filesystem as a partial map from paths to contents, and the external
world (curl / docker / s3am availability, network outcomes) as explicit
oracle structures.  Python functions from the sources are translated
one-for-one into Lean definitions; `hashlib.sha256` and `hashlib.md5`
are given full executable implementations so that key derivation can be
evaluated on concrete inputs.
-/

namespace MyToil

/-! ## Bit-level helpers for 32-bit words -/

/-- Modulus of a 32-bit word. -/
def w32 : Nat := 4294967296

/-- Addition modulo 2^32. -/
def addw (a b : Nat) : Nat := (a + b) % w32

/-- Rotate a word right by n bits. -/
def rotr (n x : Nat) : Nat := ((x >>> n) ||| (x <<< (32 - n))) % w32

/-- Left rotation of a 32-bit word. -/
def rotl (n x : Nat) : Nat := ((x <<< n) ||| (x >>> (32 - n))) % w32

/-- Bitwise complement of a 32-bit word. -/
def notw (x : Nat) : Nat := x ^^^ 4294967295

/-! ## SHA-256 (hashlib.sha256, used by generate_unique_key) -/

/-- SHA-256 big sigma 0. -/
def bsig0 (x : Nat) : Nat := (rotr 2 x) ^^^ (rotr 13 x) ^^^ (rotr 22 x)

/-- SHA-256 big sigma 1. -/
def bsig1 (x : Nat) : Nat := (rotr 6 x) ^^^ (rotr 11 x) ^^^ (rotr 25 x)

/-- SHA-256 small sigma 0. -/
def ssig0 (x : Nat) : Nat := ((rotr 7 x) ^^^ (rotr 18 x)) ^^^ (x >>> 3)

/-- SHA-256 small sigma 1. -/
def ssig1 (x : Nat) : Nat := ((rotr 17 x) ^^^ (rotr 19 x)) ^^^ (x >>> 10)

/-- SHA-256 choice function. -/
def chf (x y z : Nat) : Nat := (x &&& y) ^^^ ((notw x) &&& z)

/-- SHA-256 majority function. -/
def maj (x y z : Nat) : Nat := ((x &&& y) ^^^ (x &&& z)) ^^^ (y &&& z)

/-- The 64 SHA-256 round constants. -/
def K256 : List Nat :=
  [1116352408, 1899447441, 3049323471, 3921009573, 961987163,
   1508970993, 2453635748, 2870763221, 3624381080, 310598401,
   607225278, 1426881987, 1925078388, 2162078206, 2614888103,
   3248222580, 3835390401, 4022224774, 264347078, 604807628,
   770255983, 1249150122, 1555081692, 1996064986, 2554220882,
   2821834349, 2952996808, 3210313671, 3336571891, 3584528711,
   113926993, 338241895, 666307205, 773529912, 1294757372,
   1396182291, 1695183700, 1986661051, 2177026350, 2456956037,
   2730485921, 2820302411, 3259730800, 3345764771, 3516065817,
   3600352804, 4094571909, 275423344, 430227734, 506948616,
   659060556, 883997877, 958139571, 1322822218, 1537002063,
   1747873779, 1955562222, 2024104815, 2227730452, 2361852424,
   2428436474, 2756734187, 3204031479, 3329325298]

/-- SHA-256 working state: eight 32-bit words. -/
structure Hst where
  a : Nat
  b : Nat
  c : Nat
  d : Nat
  e : Nat
  f : Nat
  g : Nat
  hh : Nat
deriving DecidableEq, Repr

/-- SHA-256 initial hash value. -/
def H0 : Hst :=
  ⟨1779033703, 3144134277, 1013904242, 2773480762,
   1359893119, 2600822924, 528734635, 1541459225⟩

/-- One SHA-256 round, consuming a (round constant, schedule word) pair. -/
def sha256Round (kw : Nat × Nat) (s : Hst) : Hst :=
  let t1 := addw s.hh (addw (bsig1 s.e) (addw (chf s.e s.f s.g) (addw kw.1 kw.2)))
  let t2 := addw (bsig0 s.a) (maj s.a s.b s.c)
  ⟨addw t1 t2, s.a, s.b, s.c, addw s.d t1, s.e, s.f, s.g⟩

/-- Extend the message schedule by one word. -/
def wstep (w : List Nat) : List Nat :=
  let l := w.length
  w ++ [addw (addw (ssig1 (w.getD (l - 2) 0)) (w.getD (l - 7) 0))
             (addw (ssig0 (w.getD (l - 15) 0)) (w.getD (l - 16) 0))]

/-- Iterate the message-schedule extension. -/
def wextend : Nat → List Nat → List Nat
  | 0, w => w
  | n + 1, w => wextend n (wstep w)

/-- Parse a block of bytes into big-endian 32-bit words. -/
def toWordsBE : List Nat → List Nat
  | b0 :: b1 :: b2 :: b3 :: r => (((b0 * 256 + b1) * 256 + b2) * 256 + b3) :: toWordsBE r
  | _ => []

/-- SHA-256 compression of one 64-byte block. -/
def sha256Compress (s : Hst) (block : List Nat) : Hst :=
  let ws := wextend 48 (toWordsBE block)
  let t := (K256.zip ws).foldl (fun st kw => sha256Round kw st) s
  ⟨addw s.a t.a, addw s.b t.b, addw s.c t.c, addw s.d t.d,
   addw s.e t.e, addw s.f t.f, addw s.g t.g, addw s.hh t.hh⟩

/-- Big-endian bytes of a 64-bit length value. -/
def lenBytesBE (n : Nat) : List Nat :=
  [(n >>> 56) % 256, (n >>> 48) % 256, (n >>> 40) % 256, (n >>> 32) % 256,
   (n >>> 24) % 256, (n >>> 16) % 256, (n >>> 8) % 256, n % 256]

/-- SHA-256 message padding. -/
def sha256Pad (m : List Nat) : List Nat :=
  m ++ [128] ++ List.replicate ((64 - ((m.length + 9) % 64)) % 64) 0 ++ lenBytesBE (8 * m.length)

/-- Split a byte list into 64-byte chunks (fuel-driven). -/
def chunks64 : Nat → List Nat → List (List Nat)
  | 0, _ => []
  | _, [] => []
  | fuel + 1, l => l.take 64 :: chunks64 fuel (l.drop 64)

/-- Big-endian bytes of a 32-bit word. -/
def wordBytesBE (x : Nat) : List Nat :=
  [(x >>> 24) % 256, (x >>> 16) % 256, (x >>> 8) % 256, x % 256]

/-- SHA-256 final digest bytes of a hash state. -/
def sha256Digest (s : Hst) : List Nat :=
  wordBytesBE s.a ++ wordBytesBE s.b ++ wordBytesBE s.c ++ wordBytesBE s.d ++
  wordBytesBE s.e ++ wordBytesBE s.f ++ wordBytesBE s.g ++ wordBytesBE s.hh

/-- hashlib.sha256(msg).digest(): 32 bytes. -/
def sha256 (msg : List Nat) : List Nat :=
  let p := sha256Pad msg
  sha256Digest ((chunks64 p.length p).foldl sha256Compress H0)

theorem sha256Digest_length (s : Hst) : (sha256Digest s).length = 32 := by
  simp [sha256Digest, wordBytesBE]

theorem sha256_length (msg : List Nat) : (sha256 msg).length = 32 :=
  sha256Digest_length _

/-! ## MD5 (hashlib.md5, used for the SSE-C key-md5 header) -/

/-- The 64 MD5 round constants. -/
def md5K : List Nat :=
  [3614090360, 3905402710, 606105819, 3250441966, 4118548399,
   1200080426, 2821735955, 4249261313, 1770035416, 2336552879,
   4294925233, 2304563134, 1804603682, 4254626195, 2792965006,
   1236535329, 4129170786, 3225465664, 643717713, 3921069994,
   3593408605, 38016083, 3634488961, 3889429448, 568446438,
   3275163606, 4107603335, 1163531501, 2850285829, 4243563512,
   1735328473, 2368359562, 4294588738, 2272392833, 1839030562,
   4259657740, 2763975236, 1272893353, 4139469664, 3200236656,
   681279174, 3936430074, 3572445317, 76029189, 3654602809,
   3873151461, 530742520, 3299628645, 4096336452, 1126891415,
   2878612391, 4237533241, 1700485571, 2399980690, 4293915773,
   2240044497, 1873313359, 4264355552, 2734768916, 1309151649,
   4149444226, 3174756917, 718787259, 3951481745]

/-- The 64 MD5 per-round shift amounts. -/
def md5S : List Nat :=
  [7, 12, 17, 22, 7, 12, 17, 22, 7, 12, 17, 22, 7, 12, 17, 22,
   5, 9, 14, 20, 5, 9, 14, 20, 5, 9, 14, 20, 5, 9, 14, 20,
   4, 11, 16, 23, 4, 11, 16, 23, 4, 11, 16, 23, 4, 11, 16, 23,
   6, 10, 15, 21, 6, 10, 15, 21, 6, 10, 15, 21, 6, 10, 15, 21]

/-- MD5 round mixing function, by round index. -/
def md5F (i b c d : Nat) : Nat :=
  if i < 16 then (b &&& c) ||| ((notw b) &&& d)
  else if i < 32 then (d &&& b) ||| ((notw d) &&& c)
  else if i < 48 then b ^^^ c ^^^ d
  else c ^^^ (b ||| (notw d))

/-- MD5 message-word index, by round index. -/
def md5g (i : Nat) : Nat :=
  if i < 16 then i
  else if i < 32 then (5 * i + 1) % 16
  else if i < 48 then (3 * i + 5) % 16
  else (7 * i) % 16

/-- MD5 working state: four 32-bit words. -/
structure MDst where
  a : Nat
  b : Nat
  c : Nat
  d : Nat
deriving DecidableEq, Repr

/-- One MD5 round on schedule words `m`. -/
def md5Round (m : List Nat) (i : Nat) (s : MDst) : MDst :=
  let t := addw (md5F i s.b s.c s.d) (addw s.a (addw (md5K.getD i 0) (m.getD (md5g i) 0)))
  ⟨s.d, addw s.b (rotl (md5S.getD i 0) t), s.b, s.c⟩

/-- Run MD5 rounds `64 - fuel` up to 63. -/
def md5Rounds (m : List Nat) : Nat → MDst → MDst
  | 0, s => s
  | n + 1, s => md5Rounds m n (md5Round m (64 - (n + 1)) s)

/-- Parse a block of bytes into little-endian 32-bit words. -/
def toWordsLE : List Nat → List Nat
  | b0 :: b1 :: b2 :: b3 :: r => (((b3 * 256 + b2) * 256 + b1) * 256 + b0) :: toWordsLE r
  | _ => []

/-- MD5 compression of one 64-byte block. -/
def md5Compress (s : MDst) (block : List Nat) : MDst :=
  let t := md5Rounds (toWordsLE block) 64 s
  ⟨addw s.a t.a, addw s.b t.b, addw s.c t.c, addw s.d t.d⟩

/-- Little-endian bytes of a 64-bit length value. -/
def lenBytesLE (n : Nat) : List Nat :=
  [n % 256, (n >>> 8) % 256, (n >>> 16) % 256, (n >>> 24) % 256,
   (n >>> 32) % 256, (n >>> 40) % 256, (n >>> 48) % 256, (n >>> 56) % 256]

/-- MD5 message padding. -/
def md5Pad (m : List Nat) : List Nat :=
  m ++ [128] ++ List.replicate ((64 - ((m.length + 9) % 64)) % 64) 0 ++ lenBytesLE (8 * m.length)

/-- Little-endian bytes of a 32-bit word. -/
def wordBytesLE (x : Nat) : List Nat :=
  [x % 256, (x >>> 8) % 256, (x >>> 16) % 256, (x >>> 24) % 256]

/-- hashlib.md5(msg).digest(): 16 bytes. -/
def md5 (msg : List Nat) : List Nat :=
  let p := md5Pad msg
  let t := (chunks64 p.length p).foldl md5Compress ⟨1732584193, 4023233417, 2562383102, 271733878⟩
  wordBytesLE t.a ++ wordBytesLE t.b ++ wordBytesLE t.c ++ wordBytesLE t.d

/-! ## Python-level primitives -/

/-- Bytes of an ASCII string (Python 2 str). -/
def strBytes (s : String) : List Nat := s.data.map Char.toNat

/-- A local filesystem: path to file contents, `none` when absent. -/
def FS : Type := String → Option (List Nat)

/-- Write a file (creating or overwriting). -/
def fsWrite (fs : FS) (p : String) (c : List Nat) : FS :=
  fun q => if q = p then some c else fs q

/-- The empty filesystem. -/
def fs0 : FS := fun _ => none

/-- Split a character list at a separator, Python str.split style. -/
def splitChar (c : Char) : List Char → List (List Char)
  | [] => [[]]
  | x :: r =>
    let rest := splitChar c r
    if x = c then [] :: rest
    else (x :: rest.headD []) :: rest.tail

/-- Python str.split with a slash argument. -/
def splitSlash (s : String) : List String := (splitChar '/' s.data).map String.mk

/-- Python sep.join of string pieces. -/
def intercal (sep : String) : List String → String
  | [] => ""
  | [a] => a
  | a :: r => a ++ sep ++ intercal sep r

/-- os.path.join of two components (POSIX). -/
def pjoin2 (a b : String) : String :=
  if b.data.headD ' ' = '/' then b
  else if a = "" || a.data.getLastD ' ' = '/' then a ++ b
  else a ++ "/" ++ b

/-- os.path.join of a base and further components. -/
def pjoin (base : String) (rest : List String) : String := rest.foldl pjoin2 base

/-- os.path.basename (POSIX): everything after the last slash. -/
def basename (s : String) : String := (splitSlash s).getLastD s

/-- Python str.lstrip with a slash argument. -/
def lstripSlash (s : String) : String := String.mk (s.data.dropWhile (fun c => c = '/'))

/-- The base64 alphabet. -/
def b64char (n : Nat) : Char :=
  ("ABCDEFGHIJKLMNOPQRSTUVWXYZabcdefghijklmnopqrstuvwxyz0123456789+/").data.getD n 'A'

/-- base64.b64encode of a byte list, as an ASCII string. -/
def b64encode : List Nat → String
  | [] => ""
  | [a] => String.mk [b64char (a / 4), b64char (a % 4 * 16)] ++ "=="
  | [a, b] => String.mk [b64char (a / 4), b64char (a % 4 * 16 + b / 16), b64char (b % 16 * 4)] ++ "="
  | a :: b :: c :: r =>
    String.mk [b64char (a / 4), b64char (a % 4 * 16 + b / 16),
               b64char (b % 16 * 4 + c / 64), b64char (c % 64)] ++ b64encode r

/-- The Python exception surface of these scripts. -/
inductive PyErr
  /-- RuntimeError raised explicitly with a message. -/
  | runtimeError (msg : String)
  /-- subprocess.CalledProcessError escaping from check_call or check_output. -/
  | calledProcessError (cmd : List String)
  /-- AssertionError from an assert statement. -/
  | assertionError (msg : String)
  /-- IOError from opening a missing file. -/
  | ioError (path : String)
deriving DecidableEq, Repr

/-- Constructor index of an error, to compare error kinds. -/
def errKind : PyErr → Nat
  | .runtimeError _ => 0
  | .calledProcessError _ => 1
  | .assertionError _ => 2
  | .ioError _ => 3

/-- The error of a failed computation, `none` on success. -/
def errOf {α : Type} : Except PyErr α → Option PyErr
  | .ok _ => none
  | .error e => some e

/-- The file at a path after a download that returns the new filesystem;
`none` when the download failed. -/
def fileAt (r : Except PyErr FS) (p : String) : Option (Option (List Nat)) :=
  match r with
  | .ok f => some (f p)
  | .error _ => none

/-- subprocess.check_call of an external command: `ok` tells whether the
command exited 0. -/
def check_call (ok : Bool) (cmd : List String) : Except PyErr Unit :=
  if ok then .ok () else .error (.calledProcessError cmd)

/-- The external world seen by a download: whether the curl executable is
installed, and the network outcome per URL (`some content` when curl exits 0
having written `content`, `none` when curl exits non-zero after its internal
retries). -/
structure World where
  curl : Bool
  fetch : String → Option (List Nat)

/-! ## generate_unique_key (toil_adtex_coverage.py lines 44-57; identical in
toil_muse.py lines 40-53 and toil_adtex_zygosity.py lines 50-63) -/

/-- Message of the master-key length assertion. -/
def mkLenMsg : String := "Invalid Key! Must be 32 characters."

/-- Message of the derived-key length assertion. -/
def nkLenMsg : String := "New key is invalid and is not 32 characters"

/-- generate_unique_key: read the master key file, assert it is 32 bytes,
and return sha256(master_key + url). -/
def generate_unique_key (fs : FS) (master_key_path : String) (url : List Nat) :
    Except PyErr (List Nat) :=
  match fs master_key_path with
  | none => .error (.ioError master_key_path)
  | some master_key =>
    if master_key.length = 32 then
      let new_key := sha256 (master_key ++ url)
      if new_key.length = 32 then .ok new_key else .error (.assertionError nkLenMsg)
    else .error (.assertionError mkLenMsg)

/-! ## Download helpers -/

/-- Message of the RuntimeError raised when curl is absent. -/
def curlMissingMsg : String := "Failed to find curl. Install via apt-get install curl"

/-- The SSE-C request headers for a derived key. -/
def encHeaders (key : List Nat) : List String :=
  ["x-amz-server-side-encryption-customer-algorithm:AES256",
   "x-amz-server-side-encryption-customer-key:" ++ b64encode key,
   "x-amz-server-side-encryption-customer-key-md5:" ++ b64encode (md5 key)]

/-- The curl command of download_encrypted_file. -/
def curl_enc_cmd (key : List Nat) (url file_path : String) : List String :=
  ["curl", "-fs", "--retry", "5",
   "-H", (encHeaders key).getD 0 "", "-H", (encHeaders key).getD 1 "",
   "-H", (encHeaders key).getD 2 "", url, "-o", file_path]

/-- The curl command of download_S3_file and download_from_url. -/
def curl_s3_cmd (url file_path : String) : List String :=
  ["curl", "-fs", "--retry", "5", "--create-dir", url, "-o", file_path]

/-- download_encrypted_file (toil_adtex_coverage.py lines 60-80): derive the
per-URL key, run curl with SSE-C headers, assert the file exists. -/
def download_encrypted_file (w : World) (fs : FS) (work_dir url key_path name : String) :
    Except PyErr FS :=
  let file_path := pjoin work_dir [name]
  match generate_unique_key fs key_path (strBytes url) with
  | .error e => .error e
  | .ok key =>
    if w.curl then
      match w.fetch url with
      | none => .error (.calledProcessError (curl_enc_cmd key url file_path))
      | some content =>
        let fs2 := fsWrite fs file_path content
        if (fs2 file_path).isSome then .ok fs2 else .error (.assertionError "os.path.exists")
    else .error (.runtimeError curlMissingMsg)

/-- download_S3_file (toil_adtex_coverage.py lines 82-96): plain curl
download, then assert the file exists. -/
def download_S3_file (w : World) (fs : FS) (work_dir url name : String) :
    Except PyErr FS :=
  let file_path := pjoin work_dir [name]
  if w.curl then
    match w.fetch url with
    | none => .error (.calledProcessError (curl_s3_cmd url file_path))
    | some content =>
      let fs2 := fsWrite fs file_path content
      if (fs2 file_path).isSome then .ok fs2 else .error (.assertionError "os.path.exists")
  else .error (.runtimeError curlMissingMsg)

/-- download_from_url (toil_adtex_coverage.py lines 99-117): skip the fetch
when the destination already exists, then assert existence and seal the
reserved jobstore id with updateGlobalFile. -/
def download_from_url (w : World) (fs : FS) (store : Nat → Option (List Nat))
    (work_dir name url : String) (gid : Nat) :
    Except PyErr (FS × (Nat → Option (List Nat))) :=
  let file_path := pjoin work_dir [name]
  let afterCurl : Except PyErr FS :=
    if (fs file_path).isSome then .ok fs
    else if w.curl then
      match w.fetch url with
      | none => .error (.calledProcessError (curl_s3_cmd url file_path))
      | some content => .ok (fsWrite fs file_path content)
    else .error (.runtimeError curlMissingMsg)
  match afterCurl with
  | .error e => .error e
  | .ok fs2 =>
    match fs2 file_path with
    | none => .error (.assertionError "os.path.exists")
    | some content => .ok (fs2, fun i => if i = gid then some content else store i)

/-- The Toil jobstore: a fresh-id counter and the sealed contents. -/
structure Store where
  next : Nat
  tbl : Nat → Option (List Nat)

/-- fileStore.writeGlobalFile: allocate a fresh global id sealed with the
given content. -/
def writeGlobalFile (st : Store) (content : List Nat) : Nat × Store :=
  (st.next, ⟨st.next + 1, fun i => if i = st.next then some content else st.tbl i⟩)

/-- download_from_url (toil_adtex_zygosity.py lines 95-110): skip the fetch
when the destination already exists, assert existence, then store the file
via writeGlobalFile. -/
def download_from_url_z (w : World) (fs : FS) (st : Store) (work_dir url : String) :
    Except PyErr (FS × Store × Nat) :=
  let file_path := pjoin work_dir [basename url]
  let afterCurl : Except PyErr FS :=
    if (fs file_path).isSome then .ok fs
    else if w.curl then
      match w.fetch url with
      | none => .error (.calledProcessError (curl_s3_cmd url file_path))
      | some content => .ok (fsWrite fs file_path content)
    else .error (.runtimeError curlMissingMsg)
  match afterCurl with
  | .error e => .error e
  | .ok fs2 =>
    match fs2 file_path with
    | none => .error (.assertionError "os.path.exists")
    | some content =>
      let r := writeGlobalFile st content
      .ok (fs2, r.2, r.1)

/-- Message of the explicit key-length RuntimeError in the zygosity script. -/
def zKeyLenMsg : String := "Invalid Key! Must be 32 bytes"

/-- download_encrypted_file (toil_adtex_zygosity.py lines 65-92): read and
length-check the master key, derive the per-URL key, curl with SSE-C
headers, assert existence, store via writeGlobalFile. -/
def download_encrypted_file_z (w : World) (fs : FS) (st : Store) (url key_path work_dir : String) :
    Except PyErr (FS × Store × Nat) :=
  let file_path := pjoin work_dir [basename url]
  match fs key_path with
  | none => .error (.ioError key_path)
  | some key0 =>
    if key0.length ≠ 32 then .error (.runtimeError zKeyLenMsg)
    else
      match generate_unique_key fs key_path (strBytes url) with
      | .error e => .error e
      | .ok key =>
        if w.curl then
          match w.fetch url with
          | none => .error (.calledProcessError (curl_enc_cmd key url file_path))
          | some content =>
            let fs2 := fsWrite fs file_path content
            match fs2 file_path with
            | none => .error (.assertionError "os.path.exists")
            | some c2 =>
              let r := writeGlobalFile st c2
              .ok (fs2, r.2, r.1)
        else .error (.runtimeError curlMissingMsg)

/-! ## return_input_paths (toil_adtex_coverage.py lines 120-141; identical in
toil_muse.py and toil_adtex_zygosity.py) -/

/-- The single-name branch of return_input_paths: if the file is not yet in
the working directory, readGlobalFile materializes it there, otherwise the
existing file is reused.  The Bool records whether the backing transfer
(readGlobalFile) was invoked. -/
def return_input_path (store : Nat → Option (List Nat)) (fs : FS) (work_dir : String)
    (ids : String → Nat) (name : String) : FS × String × Bool :=
  let p := pjoin work_dir [name]
  if (fs p).isSome then (fs, p, false)
  else (fsWrite fs p ((store (ids name)).getD []), p, true)

/-! ## docker_call (toil_adtex_zygosity.py lines 265-289; toil_muse.py
lines 225-249 differs only in the --log-driver flag) -/

/-- The external world seen by docker_call: whether docker is installed and
whether the containerized tool exits 0. -/
structure DockerWorld where
  dockerInstalled : Bool
  runOk : Bool

/-- Message of the RuntimeError for a missing docker executable. -/
def dockerMissingMsg : String := "docker not found on system. Install on all nodes."

/-- Message of the RuntimeError for a non-zero tool exit. -/
def dockerFailMsg : String := "docker command returned a non-zero exit status. Check error logs."

/-- The base docker invocation of the zygosity script. -/
def base_docker_call (work_dir : String) (useSudo : Bool) : List String :=
  let base := ["docker", "run", "--log-driver=none", "--rm", "-v", work_dir ++ ":/data"]
  if useSudo then "sudo" :: base else base

/-- docker_call: run the tool in a container; OSError becomes the
missing-docker RuntimeError, CalledProcessError the tool-failure
RuntimeError.  On success the executed command is returned as a
transcript. -/
def docker_call (w : DockerWorld) (work_dir : String) (tool_parameters : List String)
    (tool : String) (java_opts : Option String) (useSudo : Bool) :
    Except PyErr (List String) :=
  let base :=
    match java_opts with
    | some jo => base_docker_call work_dir useSudo ++ ["-e", "JAVA_OPTS=" ++ jo]
    | none => base_docker_call work_dir useSudo
  let cmd := base ++ [tool] ++ tool_parameters
  if w.dockerInstalled then
    if w.runOk then .ok cmd
    else .error (.runtimeError dockerFailMsg)
  else .error (.runtimeError dockerMissingMsg)

/-! ## Upload jobs -/

/-- The S3 website base URL shared by the three scripts. -/
def base_url : String := "https://s3-us-west-2.amazonaws.com/"

/-- upload_file_to_s3 (toil_adtex_coverage.py lines 261-292): derive a key
for the full destination URL, write it to a key file, and run s3am upload
with --sse-key-file.  Returns the key-file bytes and the list of
subprocess invocations performed. -/
def upload_file_to_s3 (fs : FS) (ssec s3_dir work_dir uuid : String) :
    Except PyErr (List Nat × List (List String)) :=
  let bucket_name := (splitSlash s3_dir).headD ""
  let bucket_dir := intercal "/" ((splitSlash s3_dir).drop 1)
  let outfile := uuid ++ ".tgz"
  let url := pjoin base_url [bucket_name, bucket_dir, outfile]
  match generate_unique_key fs ssec (strBytes url) with
  | .error e => .error e
  | .ok key =>
    let s3am_command :=
      ["s3am", "upload",
       "--sse-key-file", pjoin work_dir [uuid ++ ".key"],
       "file://" ++ pjoin work_dir [outfile],
       bucket_name,
       pjoin bucket_dir [outfile]]
    .ok (key, [s3am_command])

/-- The destination URL that upload_file_to_s3 derives its key for. -/
def coverage_dest_url (s3_dir uuid : String) : String :=
  pjoin base_url [(splitSlash s3_dir).headD "",
                  intercal "/" ((splitSlash s3_dir).drop 1),
                  uuid ++ ".tgz"]

/-- upload_file_to_s3 (toil_muse.py lines 252-279): s3am upload with no
encryption key.  Returns the list of subprocess invocations. -/
def upload_file_to_s3_muse (s3_dir work_dir uuid : String) : List (List String) :=
  let bucket_name := (splitSlash s3_dir).headD ""
  let bucket_dir := intercal "/" ((splitSlash s3_dir).drop 1)
  let outfile := uuid ++ "muse.vcf"
  [["s3am", "upload",
    "file://" ++ pjoin work_dir [outfile],
    bucket_name,
    pjoin bucket_dir [outfile]]]

/-- upload_to_s3 (toil_adtex_zygosity.py lines 296-321): s3am upload with no
encryption key.  Returns the list of subprocess invocations. -/
def upload_to_s3 (s3_dir work_dir outfile : String) : List (List String) :=
  let bucket_name := (splitSlash (lstripSlash s3_dir)).headD ""
  let bucket_dir := intercal "/" ((splitSlash (lstripSlash s3_dir)).drop 1)
  [["s3am", "upload",
    "file://" ++ pjoin work_dir [outfile],
    bucket_name,
    pjoin bucket_dir [outfile]]]

/-! ## Driver startup and job spawning -/

/-- The input_args dictionary assembled by the coverage script's main
block. -/
structure CfgCov where
  config : String
  white : String
  ssec : String
  output_dir : Option String
  s3_dir : Option String
deriving DecidableEq, Repr

/-- Python truthiness of an optional string (None and the empty string are
falsy). -/
def truthy : Option String → Bool
  | none => false
  | some s => s ≠ ""

/-- The main block of toil_adtex_coverage.py (lines 295-310): build the
input_args dictionary and start Toil.  No master-key validation happens
here; the key file is not read at startup. -/
def main_startup_cov (config white ssec : String) (out s3_dir : Option String) :
    Except PyErr CfgCov :=
  .ok { config := config, white := white, ssec := ssec, output_dir := out, s3_dir := s3_dir }

/-- Names of the upload child jobs spawned at the end of the adtex job
(toil_adtex_coverage.py lines 253-255): exactly one when s3_dir is truthy,
none otherwise. -/
def adtex_upload_children (cfg : CfgCov) : List String :=
  if truthy cfg.s3_dir then ["upload_file_to_s3"] else []

/-! ## Job graph engine

Modelled from the spec: the scheduling semantics of Toil's
addChildJobFn/addFollowOnJobFn (the engine the scripts drive via
`job.addChildJobFn` and `job.addFollowOnJobFn`) is not part of this
repository's sources, so the job graph, job states and the scheduler step
relation are modelled from the specification: states Pending, Runnable,
Running, Succeeded, Failed; children scheduled while the parent runs; a
follow-on made Runnable only when its parent and the transitive closure of
the parent's children are all Succeeded. -/

/-- Job states (the terminal Cancelled state of the spec plays no role in
the follow-on property and is omitted). -/
inductive JState
  | pending
  | runnable
  | running
  | succeeded
  | failed
deriving DecidableEq, Repr

/-- A static job graph: per-job children and at most one follow-on. -/
structure JobGraph where
  children : Nat → List Nat
  followOn : Nat → Option Nat

/-- Transitive closure of the child relation: `Desc g j c` holds when `c`
is a child of `j` or a descendant of such a child. -/
inductive Desc (g : JobGraph) : Nat → Nat → Prop
  | child (j c : Nat) : c ∈ g.children j → Desc g j c
  | trans (j c d : Nat) : c ∈ g.children j → Desc g c d → Desc g j d

/-- All jobs in the transitive closure of `j`'s children are Succeeded. -/
def AllDescSucc (g : JobGraph) (σ : Nat → JState) (j : Nat) : Prop :=
  ∀ c, Desc g j c → σ c = JState.succeeded

/-- Point update of a job-state assignment. -/
def upd (σ : Nat → JState) (j : Nat) (s : JState) : Nat → JState :=
  fun k => if k = j then s else σ k

/-- Scheduler step relation. -/
inductive Step (g : JobGraph) : (Nat → JState) → (Nat → JState) → Prop
  /-- A worker pulls a Runnable job. -/
  | start (σ : Nat → JState) (j : Nat) :
      σ j = JState.runnable → Step g σ (upd σ j JState.running)
  /-- A Running job completes successfully. -/
  | finish (σ : Nat → JState) (j : Nat) :
      σ j = JState.running → Step g σ (upd σ j JState.succeeded)
  /-- A Running job fails. -/
  | fail (σ : Nat → JState) (j : Nat) :
      σ j = JState.running → Step g σ (upd σ j JState.failed)
  /-- A child of a running parent is scheduled. -/
  | release (σ : Nat → JState) (j c : Nat) :
      c ∈ g.children j → σ j = JState.running → σ c = JState.pending →
      Step g σ (upd σ c JState.runnable)
  /-- A follow-on becomes Runnable: only when its parent and every job in
  the transitive closure of the parent's children are Succeeded. -/
  | promote (σ : Nat → JState) (j f : Nat) :
      g.followOn j = some f → σ j = JState.succeeded → AllDescSucc g σ j →
      σ f = JState.pending → Step g σ (upd σ f JState.runnable)

/-- Reachability under the scheduler. -/
inductive Reach (g : JobGraph) (σ0 : Nat → JState) : (Nat → JState) → Prop
  | refl : Reach g σ0 σ0
  | step (σ σ2 : Nat → JState) : Reach g σ0 σ → Step g σ σ2 → Reach g σ0 σ2

/-- Well-formed graph: a follow-on target is never also a child, and no two
jobs share a follow-on target (each JobNode holds at most one followOn id of
its own). -/
structure WFGraph (g : JobGraph) : Prop where
  fo_not_child : ∀ j f, g.followOn j = some f → ∀ j2, f ∉ g.children j2
  fo_inj : ∀ j j2 f, g.followOn j = some f → g.followOn j2 = some f → j = j2

/-- Initial states: every follow-on target starts Pending. -/
def InitPending (g : JobGraph) (σ : Nat → JState) : Prop :=
  ∀ j f, g.followOn j = some f → σ f = JState.pending

/-- A step never un-succeeds a job. -/
theorem step_preserves_succeeded (g : JobGraph) (σ σ2 : Nat → JState) (hs : Step g σ σ2)
    (k : Nat) (hk : σ k = JState.succeeded) : σ2 k = JState.succeeded := by
  cases hs with
  | start j hj =>
    by_cases hkj : k = j
    · rw [hkj, hj] at hk; cases hk
    · simpa [upd, hkj] using hk
  | finish j hj =>
    by_cases hkj : k = j
    · simp [upd, hkj]
    · simpa [upd, hkj] using hk
  | fail j hj =>
    by_cases hkj : k = j
    · rw [hkj, hj] at hk; cases hk
    · simpa [upd, hkj] using hk
  | release j c hc hj hcp =>
    by_cases hkc : k = c
    · rw [hkc, hcp] at hk; cases hk
    · simpa [upd, hkc] using hk
  | promote j f hf hj hd hfp =>
    by_cases hkf : k = f
    · rw [hkf, hfp] at hk; cases hk
    · simpa [upd, hkf] using hk

/-- A step preserves `AllDescSucc`. -/
theorem allDescSucc_step (g : JobGraph) (σ σ2 : Nat → JState) (hs : Step g σ σ2)
    (j : Nat) (hd : AllDescSucc g σ j) : AllDescSucc g σ2 j :=
  fun c hc => step_preserves_succeeded g σ σ2 hs c (hd c hc)

/-- Invariant: a follow-on that has left Pending was promoted under the full
guard, so its parent and the parent's transitive children are Succeeded. -/
def FollowOnInv (g : JobGraph) (σ : Nat → JState) : Prop :=
  ∀ j f, g.followOn j = some f → σ f ≠ JState.pending →
    σ j = JState.succeeded ∧ AllDescSucc g σ j

theorem followOnInv_init (g : JobGraph) (σ : Nat → JState) (h : InitPending g σ) :
    FollowOnInv g σ := by
  intro j f hf hfp
  exact absurd (h j f hf) hfp

theorem followOnInv_step (g : JobGraph) (hw : WFGraph g) (σ σ2 : Nat → JState)
    (hs : Step g σ σ2) (hI : FollowOnInv g σ) : FollowOnInv g σ2 := by
  intro j f hf hfp2
  have transport : σ f ≠ JState.pending →
      σ2 j = JState.succeeded ∧ AllDescSucc g σ2 j := by
    intro hfp
    obtain ⟨hj, hd⟩ := hI j f hf hfp
    exact ⟨step_preserves_succeeded g σ σ2 hs j hj, allDescSucc_step g σ σ2 hs j hd⟩
  cases hs with
  | start j0 hj0 =>
    apply transport
    by_cases hfj : f = j0
    · rw [hfj, hj0]; intro hc; cases hc
    · intro hc
      have : upd σ j0 JState.running f = σ f := by simp [upd, hfj]
      exact hfp2 (this ▸ hc)
  | finish j0 hj0 =>
    apply transport
    by_cases hfj : f = j0
    · rw [hfj, hj0]; intro hc; cases hc
    · intro hc
      have : upd σ j0 JState.succeeded f = σ f := by simp [upd, hfj]
      exact hfp2 (this ▸ hc)
  | fail j0 hj0 =>
    apply transport
    by_cases hfj : f = j0
    · rw [hfj, hj0]; intro hc; cases hc
    · intro hc
      have : upd σ j0 JState.failed f = σ f := by simp [upd, hfj]
      exact hfp2 (this ▸ hc)
  | release j0 c hc hj0 hcp =>
    apply transport
    have hfc : f ≠ c := fun hfc => (hw.fo_not_child j f hf j0) (hfc ▸ hc)
    intro hcon
    have : upd σ c JState.runnable f = σ f := by simp [upd, hfc]
    exact hfp2 (this ▸ hcon)
  | promote j1 f1 hf1 hj1 hd1 hf1p =>
    by_cases hff : f = f1
    · have hjj : j = j1 := hw.fo_inj j j1 f hf (hff ▸ hf1)
      subst hjj
      have hstep : Step g σ (upd σ f1 JState.runnable) :=
        Step.promote σ j f1 hf1 hj1 hd1 hf1p
      exact ⟨step_preserves_succeeded g σ _ hstep j hj1,
             allDescSucc_step g σ _ hstep j hd1⟩
    · apply transport
      intro hcon
      have : upd σ f1 JState.runnable f = σ f := by simp [upd, hff]
      exact hfp2 (this ▸ hcon)

theorem followOnInv_reach (g : JobGraph) (hw : WFGraph g) (σ0 σ : Nat → JState)
    (h0 : InitPending g σ0) (hr : Reach g σ0 σ) : FollowOnInv g σ := by
  induction hr with
  | refl => exact followOnInv_init g σ0 h0
  | step σ1 σ2 _ hs ih => exact followOnInv_step g hw σ1 σ2 hs ih

/-! ## Artifact id reservations of the coverage pipeline

Modelled from the spec: fileStore.getEmptyFileStoreID is Toil's, not in
this repository; it is modelled as the Artifact Store `reserve` contract, a
counter handing out fresh global ids.  The trace lists, in order, every
reservation the coverage pipeline makes (batch_start reserves the white.bed
id sealed by its download_from_url child; each per-sample adtex job
reserves its own tgz id and seals it itself with updateGlobalFile). -/

/-- reserve: hand out the next fresh global id. -/
def reserve (ctr : Nat) : Nat × Nat := (ctr, ctr + 1)

/-- One reservation: which job reserved the id, the id, and which job seals
it. -/
structure ReserveEvent where
  jobId : Nat
  gid : Nat
  sealer : Nat
deriving DecidableEq, Repr

/-- The reservation each adtex sample job makes for its tgz output
(toil_adtex_coverage.py line 199), sealed by the same job (line 247). -/
def adtexEvents : List String → Nat → Nat → List ReserveEvent
  | [], _, _ => []
  | _ :: rest, ctr, jobIx =>
    { jobId := jobIx, gid := (reserve ctr).1, sealer := jobIx } ::
      adtexEvents rest (reserve ctr).2 (jobIx + 1)

/-- All reservations of one coverage run: job 0 (batch_start) reserves the
shared white.bed id, sealed by job 1 (the download_from_url child); each
sample's adtex job (numbered from 3 after the fixed spawn_batch_jobs node)
reserves and seals its own tgz id. -/
def coverageRun (samples : List String) : List ReserveEvent :=
  { jobId := 0, gid := (reserve 0).1, sealer := 1 } :: adtexEvents samples (reserve 0).2 3

theorem adtexEvents_gid_ge (s : List String) : ∀ ctr jobIx e,
    e ∈ adtexEvents s ctr jobIx → ctr ≤ e.gid := by
  induction s with
  | nil => intro ctr jobIx e he; cases he
  | cons x rest ih =>
    intro ctr jobIx e he
    rcases List.mem_cons.mp he with h | h
    · rw [h]; exact Nat.le_refl ctr
    · exact Nat.le_of_succ_le (ih (ctr + 1) (jobIx + 1) e h)

theorem adtexEvents_gid_inj (s : List String) : ∀ ctr jobIx e1 e2,
    e1 ∈ adtexEvents s ctr jobIx → e2 ∈ adtexEvents s ctr jobIx →
    e1.gid = e2.gid → e1 = e2 := by
  induction s with
  | nil => intro ctr jobIx e1 e2 h1 _ _; cases h1
  | cons x rest ih =>
    intro ctr jobIx e1 e2 h1 h2 hg
    rcases List.mem_cons.mp h1 with h1h | h1t <;> rcases List.mem_cons.mp h2 with h2h | h2t
    · rw [h1h, h2h]
    · exfalso
      have hge := adtexEvents_gid_ge rest (ctr + 1) (jobIx + 1) e2 h2t
      rw [h1h] at hg
      simp only [reserve] at hg
      omega
    · exfalso
      have hge := adtexEvents_gid_ge rest (ctr + 1) (jobIx + 1) e1 h1t
      rw [h2h] at hg
      simp only [reserve] at hg
      omega
    · exact ih (ctr + 1) (jobIx + 1) e1 e2 h1t h2t hg

theorem coverageRun_gid_inj (samples : List String) (e1 e2 : ReserveEvent)
    (h1 : e1 ∈ coverageRun samples) (h2 : e2 ∈ coverageRun samples)
    (hg : e1.gid = e2.gid) : e1 = e2 := by
  rcases List.mem_cons.mp h1 with h1h | h1t <;> rcases List.mem_cons.mp h2 with h2h | h2t
  · rw [h1h, h2h]
  · exfalso
    have hge := adtexEvents_gid_ge samples (reserve 0).2 3 e2 h2t
    rw [h1h] at hg
    simp only [reserve] at hg hge
    omega
  · exfalso
    have hge := adtexEvents_gid_ge samples (reserve 0).2 3 e1 h1t
    rw [h2h] at hg
    simp only [reserve] at hg hge
    omega
  · exact adtexEvents_gid_inj samples (reserve 0).2 3 e1 e2 h1t h2t hg

/-! ## Concrete fixtures -/

/-- A 32-byte master key (digits, repeated). -/
def mkA : List Nat := (List.range 32).map (fun i => 48 + i % 10)

/-- A different 32-byte master key (lowercase letters). -/
def mkB : List Nat := (List.range 32).map (fun i => 97 + i % 26)

/-- A filesystem holding master key `mkA`. -/
def fsA : FS := fsWrite fs0 "master.key" mkA

/-- A filesystem holding master key `mkB` at the same path. -/
def fsB : FS := fsWrite fs0 "master.key" mkB

/-- A filesystem whose master key file holds only 5 bytes. -/
def fsBad : FS := fsWrite fs0 "master.key" [65, 66, 67, 68, 69]

/-- A concrete input URL. -/
def urlA : List Nat := strBytes "https://s3-us-west-2.amazonaws.com/bucket/a.bam"

/-- A second, distinct input URL. -/
def urlB : List Nat := strBytes "https://s3-us-west-2.amazonaws.com/bucket/b.bam"

/-- The bytes of a successful derivation, `none` on failure. -/
def okBytes (r : Except PyErr (List Nat)) : Option (List Nat) :=
  match r with
  | .ok k => some k
  | .error _ => none

/-- Successful derivation on a well-formed key file. -/
theorem generate_unique_key_ok (fs : FS) (p : String) (u mk : List Nat)
    (hread : fs p = some mk) (hlen : mk.length = 32) :
    generate_unique_key fs p u = .ok (sha256 (mk ++ u)) := by
  simp [generate_unique_key, hread, hlen, sha256_length]

/-- Failing derivation on a bad-length key file. -/
theorem generate_unique_key_badlen (fs : FS) (p : String) (u mk : List Nat)
    (hread : fs p = some mk) (hlen : mk.length ≠ 32) :
    generate_unique_key fs p u = .error (.assertionError mkLenMsg) := by
  simp [generate_unique_key, hread, hlen]

/-! ## Claims -/

/-- C2: key derivation is deterministic.  For every master key file of 32
bytes, derivation succeeds with a 32-byte key that is a function of the key
file contents and the URL alone (so two calls with identical inputs yield
identical outputs), and for the two distinct concrete URLs `urlA`/`urlB`
under the same master key the derived keys differ. -/
theorem C2_derive_deterministic (fs : FS) (p : String) (u mk : List Nat)
    (hread : fs p = some mk) (hlen : mk.length = 32) :
    (generate_unique_key fs p u = .ok (sha256 (mk ++ u))
      ∧ (sha256 (mk ++ u)).length = 32)
    ∧ (∀ fs2 p2, fs2 p2 = some mk →
        generate_unique_key fs2 p2 u = generate_unique_key fs p u)
    ∧ okBytes (generate_unique_key fsA "master.key" urlA)
        ≠ okBytes (generate_unique_key fsA "master.key" urlB)
    ∧ (okBytes (generate_unique_key fsA "master.key" urlA)).isSome = true := by
  refine ⟨⟨generate_unique_key_ok fs p u mk hread hlen, sha256_length (mk ++ u)⟩, ?_, ?_, ?_⟩
  · intro fs2 p2 hread2
    rw [generate_unique_key_ok fs2 p2 u mk hread2 hlen,
        generate_unique_key_ok fs p u mk hread hlen]
  · decide
  · decide

/-- Witness for C2 at the concrete 32-byte key file `fsA` and URL `urlA`. -/
theorem C2_derive_deterministic_witness :
    fsA "master.key" = some mkA ∧ mkA.length = 32 ∧
    ((generate_unique_key fsA "master.key" urlA = .ok (sha256 (mkA ++ urlA))
       ∧ (sha256 (mkA ++ urlA)).length = 32)
     ∧ (∀ fs2 p2, fs2 p2 = some mkA →
         generate_unique_key fs2 p2 urlA = generate_unique_key fsA "master.key" urlA)
     ∧ okBytes (generate_unique_key fsA "master.key" urlA)
         ≠ okBytes (generate_unique_key fsA "master.key" urlB)
     ∧ (okBytes (generate_unique_key fsA "master.key" urlA)).isSome = true) :=
  ⟨by decide, by decide,
   C2_derive_deterministic fsA "master.key" urlA mkA (by decide) (by decide)⟩

/-- C10: the derived key is a function of the key file contents at call
time.  Derivation depends only on the contents at the master key path (so
two derivations with the same path and URL agree exactly while the contents
are unchanged); the 32-byte length check is part of every derivation (any
call over bad-length contents errors, regardless of earlier calls); and the
two distinct 32-byte contents `mkA`/`mkB` at the same path with the same URL
derive different keys. -/
theorem C10_derive_reads_contents_at_call (fs1 fs2 : FS) (p : String) (u k : List Nat) :
    (fs1 p = fs2 p → generate_unique_key fs1 p u = generate_unique_key fs2 p u)
    ∧ (fs1 p = some k → k.length ≠ 32 →
        generate_unique_key fs1 p u = .error (.assertionError mkLenMsg))
    ∧ okBytes (generate_unique_key fsA "master.key" urlA)
        ≠ okBytes (generate_unique_key fsB "master.key" urlA) := by
  refine ⟨?_, ?_, ?_⟩
  · intro hsame
    simp [generate_unique_key, hsame]
  · intro hread hlen
    exact generate_unique_key_badlen fs1 p u k hread hlen
  · decide

/-- Witness for C10 at the 5-byte key file `fsBad`. -/
theorem C10_derive_reads_contents_at_call_witness :
    fsBad "master.key" = fsBad "master.key" ∧
    fsBad "master.key" = some [65, 66, 67, 68, 69] ∧
    ([65, 66, 67, 68, 69] : List Nat).length ≠ 32 ∧
    ((fsBad "master.key" = fsBad "master.key" →
       generate_unique_key fsBad "master.key" urlA = generate_unique_key fsBad "master.key" urlA)
     ∧ (fsBad "master.key" = some [65, 66, 67, 68, 69] →
         ([65, 66, 67, 68, 69] : List Nat).length ≠ 32 →
         generate_unique_key fsBad "master.key" urlA = .error (.assertionError mkLenMsg))
     ∧ okBytes (generate_unique_key fsA "master.key" urlA)
         ≠ okBytes (generate_unique_key fsB "master.key" urlA)) :=
  ⟨rfl, by decide, by decide,
   C10_derive_reads_contents_at_call fsBad fsBad "master.key" urlA [65, 66, 67, 68, 69]⟩

/-- C7: materialization is idempotent.  If the destination path already
holds a file, return_input_paths reuses it without invoking readGlobalFile;
and a second call right after a first one never re-invokes the transfer and
leaves byte-identical content at the path. -/
theorem C7_materialize_idempotent (store : Nat → Option (List Nat)) (fs : FS)
    (work_dir : String) (ids : String → Nat) (name : String) :
    ((fs (pjoin work_dir [name])).isSome = true →
      return_input_path store fs work_dir ids name = (fs, pjoin work_dir [name], false))
    ∧ (return_input_path store (return_input_path store fs work_dir ids name).1 work_dir ids name
        = ((return_input_path store fs work_dir ids name).1, pjoin work_dir [name], false)
       ∧ (return_input_path store (return_input_path store fs work_dir ids name).1 work_dir ids name).1
           (pjoin work_dir [name])
         = (return_input_path store fs work_dir ids name).1 (pjoin work_dir [name])) := by
  constructor
  · intro hex
    simp [return_input_path, hex]
  · by_cases hex : (fs (pjoin work_dir [name])).isSome = true
    · constructor <;> simp [return_input_path, hex]
    · have hocc : ((fsWrite fs (pjoin work_dir [name])
          ((store (ids name)).getD [])) (pjoin work_dir [name])).isSome = true := by
        simp [fsWrite]
      constructor <;> simp [return_input_path, hex, hocc]

/-- Witness for C7 at a filesystem that already holds the file. -/
theorem C7_materialize_idempotent_witness :
    ((fsWrite fs0 "/tmp/white.bed" [1]) (pjoin "/tmp" ["white.bed"])).isSome = true ∧
    return_input_path (fun _ => some [2]) (fsWrite fs0 "/tmp/white.bed" [1]) "/tmp"
        (fun _ => 0) "white.bed"
      = (fsWrite fs0 "/tmp/white.bed" [1], pjoin "/tmp" ["white.bed"], false) :=
  ⟨by decide,
   (C7_materialize_idempotent (fun _ => some [2]) (fsWrite fs0 "/tmp/white.bed" [1]) "/tmp"
      (fun _ => 0) "white.bed").1 (by decide)⟩

/-- C9: exclusive ownership of reserved global ids.  In the reservation
trace of a coverage run, distinct reservation events never share a global
id, and a global id determines its unique sealing job. -/
theorem C9_exclusive_gids (samples : List String) (e1 e2 : ReserveEvent)
    (h1 : e1 ∈ coverageRun samples) (h2 : e2 ∈ coverageRun samples) :
    (e1 ≠ e2 → e1.gid ≠ e2.gid) ∧ (e1.gid = e2.gid → e1.sealer = e2.sealer) := by
  constructor
  · intro hne hg
    exact hne (coverageRun_gid_inj samples e1 e2 h1 h2 hg)
  · intro hg
    rw [coverageRun_gid_inj samples e1 e2 h1 h2 hg]

/-- Witness for C9 on a two-sample run. -/
theorem C9_exclusive_gids_witness :
    (⟨0, 0, 1⟩ : ReserveEvent) ∈ coverageRun ["s1", "s2"] ∧
    (⟨3, 1, 3⟩ : ReserveEvent) ∈ coverageRun ["s1", "s2"] ∧
    (((⟨0, 0, 1⟩ : ReserveEvent) ≠ (⟨3, 1, 3⟩ : ReserveEvent) →
        (⟨0, 0, 1⟩ : ReserveEvent).gid ≠ (⟨3, 1, 3⟩ : ReserveEvent).gid)
     ∧ ((⟨0, 0, 1⟩ : ReserveEvent).gid = (⟨3, 1, 3⟩ : ReserveEvent).gid →
        (⟨0, 0, 1⟩ : ReserveEvent).sealer = (⟨3, 1, 3⟩ : ReserveEvent).sealer)) :=
  ⟨by decide, by decide,
   C9_exclusive_gids ["s1", "s2"] ⟨0, 0, 1⟩ ⟨3, 1, 3⟩ (by decide) (by decide)⟩

/-- A minimal concrete job graph: job 0 has child 1 and follow-on 2. -/
def g0 : JobGraph :=
  { children := fun j => if j = 0 then [1] else [],
    followOn := fun j => if j = 0 then some 2 else none }

/-- Initial states of the concrete graph: job 0 runnable, the rest
pending. -/
def stInit : Nat → JState := fun k => if k = 0 then JState.runnable else JState.pending

theorem g0_wf : WFGraph g0 := by
  constructor
  · intro j f hf j2
    simp only [g0] at hf ⊢
    by_cases hj : j = 0
    · rw [if_pos hj] at hf
      injection hf with hf2
      subst hf2
      by_cases hj2 : j2 = 0 <;> simp [hj2]
    · rw [if_neg hj] at hf
      cases hf
  · intro j j2 f hf hf2
    simp only [g0] at hf hf2
    by_cases hj : j = 0 <;> by_cases hj2 : j2 = 0
    · rw [hj, hj2]
    · rw [if_neg hj2] at hf2
      cases hf2
    · rw [if_neg hj] at hf
      cases hf
    · rw [if_neg hj] at hf
      cases hf

theorem stInit_pending : InitPending g0 stInit := by
  intro j f hf
  simp only [g0] at hf
  by_cases hj : j = 0
  · rw [if_pos hj] at hf
    injection hf with hf2
    subst hf2
    decide
  · rw [if_neg hj] at hf
    cases hf

/-- C1: for every reachable state of a well-formed job graph whose
follow-on targets start Pending, (never earlier) a follow-on that has left
Pending has its parent and the whole transitive closure of the parent's
children Succeeded; (enabled) when the parent and all transitive children
are Succeeded the promotion of a Pending follow-on to Runnable is an
available scheduler step; and (never permanently blocked) that enabling
guard is preserved by every further step. -/
theorem C1_followOn_scheduling (g : JobGraph) (σ0 σ : Nat → JState) (j f : Nat)
    (hw : WFGraph g) (h0 : InitPending g σ0) (hr : Reach g σ0 σ)
    (hf : g.followOn j = some f) :
    (σ f ≠ JState.pending → σ j = JState.succeeded ∧ AllDescSucc g σ j)
    ∧ (σ j = JState.succeeded → AllDescSucc g σ j → σ f = JState.pending →
        Step g σ (upd σ f JState.runnable))
    ∧ (∀ σ2, Step g σ σ2 → σ j = JState.succeeded → AllDescSucc g σ j →
        σ2 j = JState.succeeded ∧ AllDescSucc g σ2 j) :=
  ⟨fun hfp => followOnInv_reach g hw σ0 σ h0 hr j f hf hfp,
   fun hj hd hfp => Step.promote σ j f hf hj hd hfp,
   fun σ2 hs hj hd => ⟨step_preserves_succeeded g σ σ2 hs j hj,
                       allDescSucc_step g σ σ2 hs j hd⟩⟩

/-- Witness for C1 on the concrete graph g0 at its initial state. -/
theorem C1_followOn_scheduling_witness :
    WFGraph g0 ∧ InitPending g0 stInit ∧ Reach g0 stInit stInit ∧ g0.followOn 0 = some 2 ∧
    ((stInit 2 ≠ JState.pending → stInit 0 = JState.succeeded ∧ AllDescSucc g0 stInit 0)
     ∧ (stInit 0 = JState.succeeded → AllDescSucc g0 stInit 0 → stInit 2 = JState.pending →
         Step g0 stInit (upd stInit 2 JState.runnable))
     ∧ (∀ σ2, Step g0 stInit σ2 → stInit 0 = JState.succeeded → AllDescSucc g0 stInit 0 →
         σ2 0 = JState.succeeded ∧ AllDescSucc g0 σ2 0)) :=
  ⟨g0_wf, stInit_pending, Reach.refl, rfl,
   C1_followOn_scheduling g0 stInit stInit 0 2 g0_wf stInit_pending Reach.refl rfl⟩

/-- C3 counterexample: at concrete inputs, the muse and zygosity terminal
jobs each invoke s3am upload with a command that carries no
--sse-key-file option, so those uploads supply no encryption key at all —
against the claim that every upload supplies derive(masterKey,
destinationUrl). -/
theorem C3_upload_key_counterexample :
    upload_file_to_s3_muse "bucket/dir/" "/tmp" "u1"
      = [["s3am", "upload", "file:///tmp/u1muse.vcf", "bucket", "dir/u1muse.vcf"]]
    ∧ ("--sse-key-file" ∈ (upload_file_to_s3_muse "bucket/dir/" "/tmp" "u1").headD [] → False)
    ∧ upload_to_s3 "bucket/dir/" "/tmp" "u1.adtex.tgz"
      = [["s3am", "upload", "file:///tmp/u1.adtex.tgz", "bucket", "dir/u1.adtex.tgz"]]
    ∧ ("--sse-key-file" ∈ (upload_to_s3 "bucket/dir/" "/tmp" "u1.adtex.tgz").headD [] → False) :=
  ⟨by decide, by decide, by decide, by decide⟩

/-- C3 (amended): with a remote destination configured, each sample's
terminal job performs exactly one upload invocation; in the coverage
pipeline that upload passes --sse-key-file with a key file holding
derive(masterKey, destinationUrl) for the full destination URL of the
uploaded object, while the muse and zygosity uploads pass exactly the five
arguments of a plain s3am upload and supply no encryption key. -/
theorem C3_upload_amended (fs : FS) (ssec s3_dir work_dir uuid : String) (cfg : CfgCov)
    (mk : List Nat) (hread : fs ssec = some mk) (hlen : mk.length = 32)
    (hs3 : truthy cfg.s3_dir = true) :
    (adtex_upload_children cfg).length = 1
    ∧ upload_file_to_s3 fs ssec s3_dir work_dir uuid
        = .ok (sha256 (mk ++ strBytes (coverage_dest_url s3_dir uuid)),
               [["s3am", "upload",
                 "--sse-key-file", pjoin work_dir [uuid ++ ".key"],
                 "file://" ++ pjoin work_dir [uuid ++ ".tgz"],
                 (splitSlash s3_dir).headD "",
                 pjoin (intercal "/" ((splitSlash s3_dir).drop 1)) [uuid ++ ".tgz"]]])
    ∧ generate_unique_key fs ssec (strBytes (coverage_dest_url s3_dir uuid))
        = .ok (sha256 (mk ++ strBytes (coverage_dest_url s3_dir uuid)))
    ∧ (∀ s3d wd uu, upload_file_to_s3_muse s3d wd uu
        = [["s3am", "upload", "file://" ++ pjoin wd [uu ++ "muse.vcf"],
            (splitSlash s3d).headD "",
            pjoin (intercal "/" ((splitSlash s3d).drop 1)) [uu ++ "muse.vcf"]]])
    ∧ (∀ s3d wd outf, upload_to_s3 s3d wd outf
        = [["s3am", "upload", "file://" ++ pjoin wd [outf],
            (splitSlash (lstripSlash s3d)).headD "",
            pjoin (intercal "/" ((splitSlash (lstripSlash s3d)).drop 1)) [outf]]]) := by
  refine ⟨?_, ?_, ?_, fun s3d wd uu => rfl, fun s3d wd outf => rfl⟩
  · simp [adtex_upload_children, hs3]
  · simp only [upload_file_to_s3, coverage_dest_url,
      generate_unique_key_ok fs ssec _ mk hread hlen]
  · exact generate_unique_key_ok fs ssec _ mk hread hlen

/-- A concrete coverage configuration with a remote destination. -/
def cfgX : CfgCov :=
  { config := "c.txt", white := "w.bed", ssec := "master.key",
    output_dir := none, s3_dir := some "bucket/dir/" }

/-- Witness for C3 (amended) at a concrete configuration and key file. -/
theorem C3_upload_amended_witness :
    fsA "master.key" = some mkA ∧ mkA.length = 32
    ∧ truthy cfgX.s3_dir = true
    ∧ (adtex_upload_children cfgX).length = 1
    ∧ upload_file_to_s3 fsA "master.key" "bucket/dir/" "/tmp" "u1"
        = .ok (sha256 (mkA ++ strBytes (coverage_dest_url "bucket/dir/" "u1")),
               [["s3am", "upload",
                 "--sse-key-file", pjoin "/tmp" ["u1" ++ ".key"],
                 "file://" ++ pjoin "/tmp" ["u1" ++ ".tgz"],
                 (splitSlash "bucket/dir/").headD "",
                 pjoin (intercal "/" ((splitSlash "bucket/dir/").drop 1)) ["u1" ++ ".tgz"]]]) :=
  ⟨by decide, by decide, by decide,
   (C3_upload_amended fsA "master.key" "bucket/dir/" "/tmp" "u1" cfgX
      mkA (by decide) (by decide) (by decide)).1,
   (C3_upload_amended fsA "master.key" "bucket/dir/" "/tmp" "u1" cfgX
      mkA (by decide) (by decide) (by decide)).2.1⟩

/-- A network world that returns an empty body with exit status 0. -/
def wEmpty : World := ⟨true, fun u => if u = "http://x/a" then some [] else none⟩

/-- C4 counterexample: the empty-body download succeeds — the destination
file exists but is empty, so non-emptiness is not part of the checked
postcondition. -/
theorem C4_postcondition_counterexample :
    fileAt (download_S3_file wEmpty fs0 "/tmp" "http://x/a" "a") (pjoin "/tmp" ["a"])
      = some (some []) := by
  decide

/-- Writing a file makes it present. -/
theorem fsWrite_self (fs : FS) (p : String) (c : List Nat) : fsWrite fs p c p = some c := by
  simp [fsWrite]

/-- The final existence assertion of the plain and encrypted downloads:
success implies the destination file is present. -/
theorem assertExists_ok (fs2 : FS) (p : String) (fsr : FS)
    (h : (if (fs2 p).isSome = true then Except.ok fs2
          else Except.error (PyErr.assertionError "os.path.exists")) = .ok fsr) :
    (fsr p).isSome = true := by
  by_cases hex : (fs2 p).isSome = true
  · rw [if_pos hex] at h
    cases h
    exact hex
  · rw [if_neg hex] at h
    cases h

/-- The existence assertion plus writeGlobalFile tail of the zygosity
downloads: success implies the destination file is present. -/
theorem assertSeal_ok (fs2 : FS) (st : Store) (p : String) (r : FS × Store × Nat)
    (h : (match fs2 p with
          | none => Except.error (PyErr.assertionError "os.path.exists")
          | some content =>
            let w := writeGlobalFile st content
            Except.ok (fs2, w.2, w.1)) = .ok r) :
    (r.1 p).isSome = true := by
  cases hfp : fs2 p with
  | none => rw [hfp] at h; cases h
  | some content =>
    rw [hfp] at h
    cases h
    simp [hfp]

/-- C4 (amended): after every successful download (plain or encrypted,
in both the coverage and zygosity scripts) the destination file exists,
and existence is checked explicitly by the download's own os.path.exists
assertion; non-emptiness however is not checked — success guarantees
existence only. -/
theorem C4_download_postcondition (w : World) (fs : FS) (wd url name kp : String) (fsr : FS) :
    (download_S3_file w fs wd url name = .ok fsr → (fsr (pjoin wd [name])).isSome = true)
    ∧ (download_encrypted_file w fs wd url kp name = .ok fsr →
        (fsr (pjoin wd [name])).isSome = true)
    ∧ (∀ st r, download_from_url_z w fs st wd url = .ok r →
        (r.1 (pjoin wd [basename url])).isSome = true) := by
  refine ⟨?_, ?_, ?_⟩
  · intro hok
    simp only [download_S3_file] at hok
    by_cases hc : w.curl = true
    · rw [if_pos hc] at hok
      cases hfetch : w.fetch url with
      | none => rw [hfetch] at hok; cases hok
      | some content =>
        rw [hfetch] at hok
        exact assertExists_ok _ _ _ hok
    · rw [if_neg hc] at hok
      cases hok
  · intro hok
    simp only [download_encrypted_file] at hok
    cases hkey : generate_unique_key fs kp (strBytes url) with
    | error e => simp only [hkey] at hok; cases hok
    | ok key =>
      simp only [hkey] at hok
      by_cases hc : w.curl = true
      · rw [if_pos hc] at hok
        cases hfetch : w.fetch url with
        | none => rw [hfetch] at hok; cases hok
        | some content =>
          rw [hfetch] at hok
          exact assertExists_ok _ _ _ hok
      · rw [if_neg hc] at hok
        cases hok
  · intro st r hok
    simp only [download_from_url_z] at hok
    by_cases hex : (fs (pjoin wd [basename url])).isSome = true
    · rw [if_pos hex] at hok
      exact assertSeal_ok _ st _ r hok
    · rw [if_neg hex] at hok
      by_cases hc : w.curl = true
      · rw [if_pos hc] at hok
        cases hfetch : w.fetch url with
        | none => rw [hfetch] at hok; cases hok
        | some content =>
          rw [hfetch] at hok
          exact assertSeal_ok _ st _ r hok
      · rw [if_neg hc] at hok
        cases hok

/-- The always-successful network world. -/
def wOk : World := ⟨true, fun _ => some [7, 8]⟩

/-- Witness for C4 (amended) at a successful concrete download. -/
theorem C4_download_postcondition_witness :
    download_S3_file wOk fs0 "/tmp" "http://x/a" "a"
      = .ok (fsWrite fs0 (pjoin "/tmp" ["a"]) [7, 8])
    ∧ ((fsWrite fs0 (pjoin "/tmp" ["a"]) [7, 8]) (pjoin "/tmp" ["a"])).isSome = true :=
  ⟨rfl, (C4_download_postcondition wOk fs0 "/tmp" "http://x/a" "a" "k"
          (fsWrite fs0 (pjoin "/tmp" ["a"]) [7, 8])).1 rfl⟩

/-- The network world where every fetch fails after curl's internal
retries. -/
def wNetFail : World := ⟨true, fun _ => none⟩

/-- C5 counterexample: the retry count in the built curl command is the
literal 5 (hard-coded, not configurable), and exhausting the retries
surfaces the generic subprocess CalledProcessError — the same error kind
any failing subprocess (such as the s3am upload) raises, not a distinct
transfer error. -/
theorem C5_retry_counterexample :
    errOf (download_S3_file wNetFail fs0 "/tmp" "http://x/a" "a")
      = some (.calledProcessError (curl_s3_cmd "http://x/a" (pjoin "/tmp" ["a"])))
    ∧ (curl_s3_cmd "http://x/a" (pjoin "/tmp" ["a"])).getD 3 "" = "5"
    ∧ errOf (check_call false ["s3am", "upload"]) = some (.calledProcessError ["s3am", "upload"])
    ∧ errKind (.calledProcessError (curl_s3_cmd "http://x/a" (pjoin "/tmp" ["a"])))
        = errKind (.calledProcessError ["s3am", "upload"]) :=
  ⟨by decide, by decide, by decide, rfl⟩

/-- C5 (amended): every built curl command retries with the hard-coded
count 5 — the count depends on no input, so it is not configurable — and
when the network oracle fails (curl exhausts its retries and exits
non-zero) the download surfaces subprocess.CalledProcessError, the same
generic error kind raised by any other failing subprocess invocation. -/
theorem C5_retry_budget (w : World) (fs : FS) (wd url name : String)
    (hcurl : w.curl = true) (hfail : w.fetch url = none) :
    (∀ url2 p2, (curl_s3_cmd url2 p2).getD 3 "" = "5")
    ∧ (∀ k url2 p2, (curl_enc_cmd k url2 p2).getD 3 "" = "5")
    ∧ download_S3_file w fs wd url name
        = .error (.calledProcessError (curl_s3_cmd url (pjoin wd [name])))
    ∧ (∀ cmd2, errOf (check_call false cmd2) = some (.calledProcessError cmd2)
        ∧ errKind (.calledProcessError (curl_s3_cmd url (pjoin wd [name])))
            = errKind (.calledProcessError cmd2)) := by
  refine ⟨fun url2 p2 => rfl, fun k url2 p2 => rfl, ?_, fun cmd2 => ⟨rfl, rfl⟩⟩
  unfold download_S3_file
  rw [hcurl, hfail]
  simp

/-- Witness for C5 (amended) at the failing network world. -/
theorem C5_retry_budget_witness :
    wNetFail.curl = true ∧ wNetFail.fetch "http://x/a" = none
    ∧ download_S3_file wNetFail fs0 "/tmp" "http://x/a" "a"
        = .error (.calledProcessError (curl_s3_cmd "http://x/a" (pjoin "/tmp" ["a"]))) :=
  ⟨rfl, rfl,
   (C5_retry_budget wNetFail fs0 "/tmp" "http://x/a" "a" rfl rfl).2.2.1⟩

/-- C6 counterexample: with a 5-byte master key file, the main block
succeeds (startup performs no key validation and never reads the key
file), while the first key derivation — inside a running job — raises the
AssertionError, and the zygosity encrypted download raises its
RuntimeError. -/
theorem C6_startup_counterexample :
    main_startup_cov "covfig.txt" "white.bed" "master.key" none (some "bucket/dir/")
      = .ok { config := "covfig.txt", white := "white.bed", ssec := "master.key",
              output_dir := none, s3_dir := some "bucket/dir/" }
    ∧ errOf (generate_unique_key fsBad "master.key" urlA) = some (.assertionError mkLenMsg)
    ∧ errOf (download_encrypted_file_z wNetFail fsBad ⟨0, fun _ => none⟩
        "https://x/a.bam" "master.key" "/tmp") = some (.runtimeError zKeyLenMsg) :=
  ⟨rfl, by decide, by decide⟩

/-- C6 (amended): a master key file whose contents are not exactly 32
bytes is not detected at startup — the main block builds the configuration
without touching the key file and always succeeds — and the bad length
instead surfaces at the first key derivation inside a running job: an
AssertionError from generate_unique_key, and in the zygosity encrypted
download a RuntimeError from its explicit pre-check. -/
theorem C6_badkey_at_derivation (fs : FS) (p : String) (u mk : List Nat)
    (hread : fs p = some mk) (hlen : mk.length ≠ 32) :
    generate_unique_key fs p u = .error (.assertionError mkLenMsg)
    ∧ (∀ w st url wd, errOf (download_encrypted_file_z w fs st url p wd)
        = some (.runtimeError zKeyLenMsg))
    ∧ (∀ config white out s3d, main_startup_cov config white p out s3d
        = .ok { config := config, white := white, ssec := p,
                output_dir := out, s3_dir := s3d }) := by
  refine ⟨generate_unique_key_badlen fs p u mk hread hlen, ?_, fun config white out s3d => rfl⟩
  intro w st url wd
  simp only [download_encrypted_file_z, hread]
  rw [if_pos hlen]
  rfl

/-- Witness for C6 (amended) at the 5-byte key file. -/
theorem C6_badkey_at_derivation_witness :
    fsBad "master.key" = some [65, 66, 67, 68, 69]
    ∧ ([65, 66, 67, 68, 69] : List Nat).length ≠ 32
    ∧ generate_unique_key fsBad "master.key" urlB = .error (.assertionError mkLenMsg) :=
  ⟨by decide, by decide,
   (C6_badkey_at_derivation fsBad "master.key" urlB [65, 66, 67, 68, 69]
      (by decide) (by decide)).1⟩

/-- C8: a missing transfer executable is a distinct, immediately fatal
environment error.  When curl is absent the downloads raise the
missing-curl RuntimeError no matter what the network oracle would answer
(so no transfer attempt or retry is consumed), and that error differs from
the CalledProcessError of a network failure; likewise docker_call maps a
missing docker executable to its own RuntimeError, distinct from the
tool-failure message. -/
theorem C8_missing_executable (fetch : String → Option (List Nat)) (fs : FS)
    (wd url kp name : String) (mk : List Nat)
    (hread : fs kp = some mk) (hlen : mk.length = 32) :
    download_encrypted_file ⟨false, fetch⟩ fs wd url kp name
      = .error (.runtimeError curlMissingMsg)
    ∧ download_S3_file ⟨false, fetch⟩ fs wd url name = .error (.runtimeError curlMissingMsg)
    ∧ (∀ cmd, PyErr.runtimeError curlMissingMsg ≠ PyErr.calledProcessError cmd)
    ∧ (∀ wdd params tool jo su, docker_call ⟨false, true⟩ wdd params tool jo su
        = .error (.runtimeError dockerMissingMsg))
    ∧ dockerMissingMsg ≠ dockerFailMsg
    ∧ (∀ wdd params tool jo su, docker_call ⟨true, false⟩ wdd params tool jo su
        = .error (.runtimeError dockerFailMsg)) := by
  refine ⟨?_, rfl, ?_, ?_, ?_, ?_⟩
  · unfold download_encrypted_file
    rw [generate_unique_key_ok fs kp _ mk hread hlen]
    rfl
  · intro cmd h
    cases h
  · intro wdd params tool jo su
    rfl
  · decide
  · intro wdd params tool jo su
    rfl

/-- Witness for C8 with a concrete well-formed key file and no curl. -/
theorem C8_missing_executable_witness :
    fsA "master.key" = some mkA ∧ mkA.length = 32
    ∧ download_encrypted_file ⟨false, fun _ => none⟩ fsA "/tmp"
        "https://x/a.bam" "master.key" "a.bam" = .error (.runtimeError curlMissingMsg) :=
  ⟨by decide, by decide,
   (C8_missing_executable (fun _ => none) fsA "/tmp" "https://x/a.bam" "master.key" "a.bam"
      mkA (by decide) (by decide)).1⟩

end MyToil



